import Mathlib

/-!
# Verification of the coherent-chapter-generation subsystem

Shallow embedding of `src/tools/generate_coherent_chapters.py` and
`src/core/ai_client.py`.  External effects (the subprocess running a
provider CLI, the filesystem write) are modelled by explicit parameters:
a `ProcResult` oracle per provider and a `writeOk` flag.  Python `None`
versus string return values become `Option String`; an uncaught Python
exception becomes the `exc` constructor of `PyResult`.

The embedding store (`BookEmbeddings` from `core/embeddings.py`) is not
present under `src/`; it is modelled from the specification, as noted on
each of its definitions.
-/

namespace BookSystem

/-! ## Python string primitives -/

/-- Python `str.lower()` restricted to per-character lowercasing. -/
def pyLower (s : String) : String := ⟨s.data.map Char.toLower⟩

/-- Python `str.replace(' ', '_')`. -/
def pyUnderscoreSpaces (s : String) : String :=
  ⟨s.data.map (fun c => if c = ' ' then '_' else c)⟩

/-- Accumulator pass for `pySplitWs`: `acc` holds the characters of the
current token, reversed. -/
def splitWsAux : List Char → List Char → List String
  | [], acc => if acc = [] then [] else [⟨acc.reverse⟩]
  | c :: cs, acc =>
    if c.isWhitespace then
      if acc = [] then splitWsAux cs [] else ⟨acc.reverse⟩ :: splitWsAux cs []
    else splitWsAux cs (c :: acc)

/-- Python `str.split()` with no argument: the maximal whitespace-free
runs of the string, in order (empty pieces discarded). -/
def pySplitWs (s : String) : List String := splitWsAux s.data []

/-- Python `str.strip()`: drop leading and trailing whitespace. -/
def pyStrip (s : String) : String :=
  ⟨((s.data.dropWhile Char.isWhitespace).reverse.dropWhile Char.isWhitespace).reverse⟩

/-- Python `format(n, "02d")`: decimal rendering padded with zeros to a
minimum total width of 2 (the sign counts toward the width, so only
`0 ≤ n < 10` receives a leading zero). -/
def pyFormat02d (n : Int) : String :=
  if 0 ≤ n ∧ n < 10 then "0" ++ n.natAbs.repr else n.repr

/-! ## `src/core/ai_client.py` -/

/-- Outcome of one `subprocess.run` invocation of a provider CLI:
it completes with a return code, stdout and stderr, or it raises
`TimeoutExpired`, or the binary is missing (`FileNotFoundError`). -/
inductive ProcResult where
  | completed (returncode : Int) (stdout stderr : String)
  | timeout
  | notFound
deriving DecidableEq, Repr

/-- `call_claude_cli`: runs `claude --print` on the prompt.  A non-zero
return code raises inside the `try`, so the generic `except Exception`
clause re-wraps its message (hence the doubled prefix); timeout and
missing binary raise their own messages.  Success returns
`result.stdout.strip()`. -/
def call_claude_cli (res : ProcResult) : Except String String :=
  match res with
  | .completed rc out err =>
      if rc ≠ 0 then .error ("Claude CLI error: Claude CLI error: " ++ err)
      else .ok (pyStrip out)
  | .timeout => .error "Claude CLI timeout"
  | .notFound => .error "Claude CLI not found. Install with: npm install -g @anthropic-ai/claude-cli"

/-- `call_gemini_cli`: runs `gemini <prompt>`; same raising structure as
`call_claude_cli`. -/
def call_gemini_cli (res : ProcResult) : Except String String :=
  match res with
  | .completed rc out err =>
      if rc ≠ 0 then .error ("Gemini CLI error: Gemini CLI error: " ++ err)
      else .ok (pyStrip out)
  | .timeout => .error "Gemini CLI timeout"
  | .notFound => .error "Gemini CLI not found. Install Gemini CLI first"

/-- `call_ai(prompt, provider, temperature, max_tokens)`: dispatches on the
provider name, raising `ValueError` for an unknown provider; the whole body
is wrapped in `try/except Exception`, which prints the error and returns
`None`.  The prompt, the `temperature` and the `max_tokens` arguments are
accepted but never forwarded to the CLIs (the CLI outcome is the
`ProcResult` parameter); `temperature` is omitted here since it is a float
that the code never reads. -/
def call_ai (_prompt : String) (provider : String) (_max_tokens : Nat)
    (res : ProcResult) : Option String :=
  let attempt : Except String String :=
    if provider = "claude" then call_claude_cli res
    else if provider = "gemini" then call_gemini_cli res
    else .error ("Unknown provider: " ++ provider)
  match attempt with
  | .ok s => some s
  | .error _ => none

/-- Python falsiness of `chapter_content` in `if not chapter_content:`:
`None` and the empty string are falsy. -/
def isFalsy (r : Option String) : Bool :=
  match r with
  | none => true
  | some s => s = ""

/-! ## Embedding store (modelled from the spec) -/

/-- Metadata recorded for an indexed chapter: the source passes
`{"title": chapter_title, "word_count": word_count}`. -/
structure ChapterMeta where
  title : String
  word_count : Nat
deriving DecidableEq, Repr

/-- Modelled from the spec: the Embedding Store of `core/embeddings.py`
(class `BookEmbeddings`), whose source is not under `src/`.  `available`
models the truthiness of the `collection` handle tested by the generator
(`if embeddings.collection:`); `entries` is the chapter-number-keyed
mapping to content and metadata (the embedding vector itself is opaque to
every claim, so only the content it is derived from is kept). -/
structure BookEmbeddings where
  available : Bool
  entries : List (Int × String × ChapterMeta)
deriving DecidableEq, Repr

/-- Modelled from the spec: `index_chapter(chapter_number, content,
metadata)` upserts the entry for `chapter_number` (re-indexing replaces the
prior entry, other chapters untouched) and is a no-op when the store is
unavailable. -/
def index_chapter (st : BookEmbeddings) (n : Int) (content : String)
    (meta : ChapterMeta) : BookEmbeddings :=
  if st.available then
    { st with entries := (n, content, meta) :: st.entries.filter (fun e => e.1 ≠ n) }
  else st

/-- Modelled from the spec: excerpt of one stored chapter used in a context
block — title plus a bounded lead excerpt (the exact ranking and excerpt
shape are left open by the spec). -/
def contextExcerpt (e : Int × String × ChapterMeta) : String :=
  "Chapter " ++ e.1.repr ++ " (" ++ e.2.2.title ++ "): " ++ ⟨e.2.1.data.take 200⟩

/-- Modelled from the spec: `get_chapter_context(chapter_number)` returns
the empty context when the store is unavailable or when no chapter with a
strictly smaller number is indexed; otherwise a concatenation of excerpts
of strictly earlier chapters. -/
def get_chapter_context (st : BookEmbeddings) (n : Int) : String :=
  if st.available = false then ""
  else
    let prior := st.entries.filter (fun e => e.1 < n)
    if prior.isEmpty then ""
    else String.intercalate "\n" (prior.map contextExcerpt)

/-! ## Filesystem model -/

/-- The chapters directory as an association of path to file content. -/
structure Fs where
  files : List (String × String)
deriving DecidableEq, Repr

/-- `open(path, "w")` followed by `write`: creates or overwrites. -/
def fsWrite (fs : Fs) (path content : String) : Fs :=
  ⟨(path, content) :: fs.files.filter (fun e => e.1 ≠ path)⟩

/-- Content of the file at `path`, when present. -/
def fsLookup (fs : Fs) (path : String) : Option String :=
  (fs.files.find? (fun e => e.1 = path)).map (fun e => e.2)

/-! ## `src/tools/generate_coherent_chapters.py` -/

/-- Environment of one invocation: the outcome of running the CLI of each provider, and whether the output-file write succeeds. -/
structure GenEnv where
  procResult : String → ProcResult
  writeOk : Bool

/-- Mutable world touched by one invocation: chapter files and the store. -/
structure GenState where
  fs : Fs
  store : BookEmbeddings
deriving DecidableEq, Repr

/-- Result of a Python call: a returned value, or an uncaught exception,
each with the world state at that point. -/
inductive PyResult (α : Type) where
  | ret (v : α) (st : GenState)
  | exc (msg : String) (st : GenState)
deriving DecidableEq, Repr

/-- The label line of the prompt that delimits retrieved context,
`**IMPORTANT - Maintain consistency with previous chapters:**`. -/
def labelStr : String := "**IMPORTANT - Maintain consistency with previous chapters:**"

/-- Literal f-string text up to and including `": "` before the title,
with both `{chapter_num}` interpolations spliced in. -/
def promptHeader (n : Int) : String :=
  "You are writing Chapter " ++ n.repr ++
  " of \"El Desarrollador Ágil\", a technical book on developer productivity.\n\n**Chapter " ++
  n.repr ++ ": "

/-- Literal f-string text between the title and the outline. -/
def promptAfterTitle : String := "**\n\n"

/-- Literal f-string text between the outline and the context label line. -/
def promptAfterOutline : String := "\n\n"

/-- Literal f-string tail after the context slot: the fixed requirements
and style instructions. -/
def promptTail : String :=
  "\n\n**Requirements:**\n- Write in Spanish (España/Latin America neutral)\n- 4,000-5,000 words\n- Scientific rigor (cite sources)\n- Balance: 60% technical, 40% narrative\n- Include:\n  * Opening hook (compelling anecdote)\n  * Scientific evidence (studies, data)\n  * Practical frameworks\n  * Code examples where relevant\n  * Takeaways section\n- Style: Like \"Agilmente\" by Bachrach - accessible but rigorous\n- Format: Markdown\n\nWrite the COMPLETE chapter now.\n"

/-- The prompt f-string as its list of segments, in source order: literal
pieces alternate with the interpolations `{chapter_title}`, `{outline}`,
the conditional label slot and the conditional context slot of the
f-string. -/
def promptParts (n : Int) (title outline ctx : String) : List String :=
  [promptHeader n, title, promptAfterTitle, outline, promptAfterOutline,
   if ctx = "" then "" else labelStr, "\n",
   if ctx = "" then "" else ctx, promptTail]

/-- The composed generation prompt: concatenation of its segments. -/
def buildPrompt (n : Int) (title outline ctx : String) : String :=
  (promptParts n title outline ctx).foldr (fun a b => a ++ b) ""

/-- `sub` occurs contiguously inside `s`. -/
def strContains (s sub : String) : Prop :=
  sub.data <:+: s.data

/-- The context consulted by the generator: `get_chapter_context` only
when `chapter_num > 1`, otherwise the initial `context = ""`. -/
def contextFor (st : GenState) (n : Int) : String :=
  if n > 1 then get_chapter_context st.store n else ""

/-- Output path `Path(book_dir) / "outputs" / "chapters" /
f"chapter{chapter_num:02d}_{chapter_title.lower().replace(' ', '_')}.md"`. -/
def outputPath (book_dir : String) (n : Int) (title : String) : String :=
  book_dir ++ "/outputs/chapters/chapter" ++ pyFormat02d n ++ "_" ++
    pyUnderscoreSpaces (pyLower title) ++ ".md"

/-- `generate_chapter_with_coherence(chapter_num, chapter_title, outline,
book_dir, provider)`: retrieve context for chapters after the first, build
the prompt, call the provider once via `call_ai` with `max_tokens=8000`,
return `None` on a falsy response; otherwise write the chapter file
(an uncaught exception if the write fails), compute the whitespace word
count, and index the chapter when the collection handle of the store is truthy.
Console printing is not modelled. -/
def generate_chapter_with_coherence (chapter_num : Int)
    (chapter_title outline book_dir provider : String)
    (env : GenEnv) (st : GenState) : PyResult (Option String) :=
  match call_ai (buildPrompt chapter_num chapter_title outline (contextFor st chapter_num))
      provider 8000 (env.procResult provider) with
  | none => .ret none st
  | some c =>
    if c = "" then .ret none st
    else if env.writeOk = false then .exc "write failed" st
    else
      .ret (some c)
        ⟨fsWrite st.fs (outputPath book_dir chapter_num chapter_title) c,
         if st.store.available then
           index_chapter st.store chapter_num c ⟨chapter_title, (pySplitWs c).length⟩
         else st.store⟩

/-! ## Helper lemmas -/

/-- A falsy `call_ai` result makes the generator return `None` with the
state untouched. -/
theorem generate_falsy_ret_none
    (n : Int) (t o d prov : String) (env : GenEnv) (st : GenState)
    (h : isFalsy (call_ai (buildPrompt n t o (contextFor st n)) prov 8000
          (env.procResult prov)) = true) :
    generate_chapter_with_coherence n t o d prov env st = .ret none st := by
  unfold generate_chapter_with_coherence
  cases hca : call_ai (buildPrompt n t o (contextFor st n)) prov 8000 (env.procResult prov) with
  | none => simp [hca]
  | some c =>
    rw [hca] at h
    simp only [isFalsy, decide_eq_true_eq] at h
    simp [hca, h]

/-- Inversion of a successful run: the generator returned `some c` exactly
when `call_ai` produced the non-empty `c` and the write succeeded; the
final filesystem holds the chapter file and the final store is the
(conditional) indexing of the initial one. -/
theorem generate_ret_some_inv
    (n : Int) (t o d prov : String) (env : GenEnv) (st : GenState)
    (c : String) (st' : GenState)
    (h : generate_chapter_with_coherence n t o d prov env st = .ret (some c) st') :
    c ≠ "" ∧ env.writeOk = true ∧
    st'.fs = fsWrite st.fs (outputPath d n t) c ∧
    st'.store = (if st.store.available then
        index_chapter st.store n c ⟨t, (pySplitWs c).length⟩ else st.store) ∧
    call_ai (buildPrompt n t o (contextFor st n)) prov 8000 (env.procResult prov) = some c := by
  unfold generate_chapter_with_coherence at h
  cases hca : call_ai (buildPrompt n t o (contextFor st n)) prov 8000 (env.procResult prov) with
  | none => rw [hca] at h; simp at h
  | some c0 =>
    rw [hca] at h
    dsimp only at h
    by_cases hc : c0 = ""
    · simp [hc] at h
    · by_cases hw : env.writeOk = false
      · simp [hc, hw] at h
      · rw [if_neg hc, if_neg hw] at h
        injection h with h1 h2
        injection h1 with h1
        subst h1
        subst h2
        exact ⟨hc, by simpa using hw, rfl, rfl, rfl⟩

/-- Writing a file makes its content the one found at its path. -/
theorem fsLookup_fsWrite (fs : Fs) (p c : String) :
    fsLookup (fsWrite fs p c) p = some c := by
  simp [fsLookup, fsWrite, List.find?]

/-! ## Theorems -/

/-- C10: `call_ai` never propagates an exception: unknown providers yield
`None`; a completed CLI run yields the stripped stdout exactly when the
provider is known and the return code is zero, and `None` otherwise; a
timeout or missing binary yields `None`. -/
theorem c10_call_ai_never_raises (prompt prov : String) (mt : Nat) (res : ProcResult) :
    (prov ≠ "claude" ∧ prov ≠ "gemini" → call_ai prompt prov mt res = none) ∧
    (∀ rc out err, res = .completed rc out err →
      call_ai prompt prov mt res =
        if (prov = "claude" ∨ prov = "gemini") ∧ rc = 0 then some (pyStrip out) else none) ∧
    ((res = .timeout ∨ res = .notFound) → call_ai prompt prov mt res = none) := by
  refine ⟨fun h => ?_, fun rc out err h => ?_, fun h => ?_⟩
  · simp [call_ai, h.1, h.2]
  · subst h
    by_cases h1 : prov = "claude"
    · by_cases hrc : rc = 0 <;> simp [call_ai, call_claude_cli, h1, hrc]
    · by_cases h2 : prov = "gemini"
      · by_cases hrc : rc = 0 <;> simp [call_ai, call_gemini_cli, h1, h2, hrc]
      · simp [call_ai, h1, h2]
  · by_cases h1 : prov = "claude"
    · rcases h with h | h <;> subst h <;> simp [call_ai, call_claude_cli, h1]
    · by_cases h2 : prov = "gemini"
      · rcases h with h | h <;> subst h <;> simp [call_ai, call_gemini_cli, h1, h2]
      · simp [call_ai, h1, h2]

/-- Witness for C10 at a concrete unknown provider. -/
theorem c10_call_ai_never_raises_witness :
    call_ai "hola" "gpt" 4000 ProcResult.timeout = none :=
  (c10_call_ai_never_raises "hola" "gpt" 4000 ProcResult.timeout).1
    ⟨by decide, by decide⟩

/-- C1: when `call_ai` yields a falsy result (`None` or the empty string),
the generator returns `None` with the state untouched: no file written, no
`index_chapter` call, store unmodified. -/
theorem c1_generation_failure_leaves_state
    (n : Int) (t o d prov : String) (env : GenEnv) (st : GenState)
    (h : isFalsy (call_ai (buildPrompt n t o (contextFor st n)) prov 8000
          (env.procResult prov)) = true) :
    generate_chapter_with_coherence n t o d prov env st = .ret none st := by
  unfold generate_chapter_with_coherence
  cases hca : call_ai (buildPrompt n t o (contextFor st n)) prov 8000 (env.procResult prov) with
  | none => simp [hca]
  | some c =>
    rw [hca] at h
    simp only [isFalsy, decide_eq_true_eq] at h
    simp [hca, h]

/-- Witness for C1: a timeout of the claude CLI during chapter 4. -/
theorem c1_generation_failure_leaves_state_witness :
    generate_chapter_with_coherence 4 "T" "O" "." "claude"
      ⟨fun _ => ProcResult.timeout, true⟩ ⟨⟨[]⟩, ⟨true, []⟩⟩ =
      .ret none ⟨⟨[]⟩, ⟨true, []⟩⟩ :=
  c1_generation_failure_leaves_state 4 "T" "O" "." "claude"
    ⟨fun _ => ProcResult.timeout, true⟩ ⟨⟨[]⟩, ⟨true, []⟩⟩ (by decide)

/-- C2 (code_bug evidence): the function performs no input validation.
With `chapter_num = 0`, an empty title and an empty outline, and a
succeeding provider, it does not fail fast: the generation request is
sent, the file `./outputs/chapters/chapter00_.md` is written, and the
chapter is indexed into the store. -/
theorem c2_invalid_input_not_rejected :
    generate_chapter_with_coherence 0 "" "" "." "claude"
      ⟨fun _ => ProcResult.completed 0 "Texto generado." "", true⟩ ⟨⟨[]⟩, ⟨true, []⟩⟩ =
      .ret (some "Texto generado.")
        ⟨⟨[("./outputs/chapters/chapter00_.md", "Texto generado.")]⟩,
         ⟨true, [(0, "Texto generado.", ⟨"", 2⟩)]⟩⟩ ∧
    fsLookup ⟨[("./outputs/chapters/chapter00_.md", "Texto generado.")]⟩
      "./outputs/chapters/chapter00_.md" = some "Texto generado." :=
  ⟨by decide, by decide⟩

/-- Environment in which the claude CLI times out while the gemini CLI
would succeed. -/
def c3Env : GenEnv :=
  ⟨fun p => if p = "gemini" then ProcResult.completed 0 "Contenido del capítulo." ""
            else ProcResult.timeout, true⟩

/-- Empty initial state with an available store. -/
def emptySt : GenState := ⟨⟨[]⟩, ⟨true, []⟩⟩

/-- C3 (counterexample): with the primary provider `claude` failing, the
generator gives up (returns `None`, state untouched) even though the
secondary provider `gemini` would have produced a chapter in the same
environment — no secondary provider is tried. -/
theorem c3_counterexample_no_secondary_attempt :
    generate_chapter_with_coherence 2 "T" "O" "." "claude" c3Env emptySt =
      .ret none emptySt ∧
    generate_chapter_with_coherence 2 "T" "O" "." "gemini" c3Env emptySt =
      .ret (some "Contenido del capítulo.")
        ⟨⟨[("./outputs/chapters/chapter02_t.md", "Contenido del capítulo.")]⟩,
         ⟨true, [(2, "Contenido del capítulo.", ⟨"T", 3⟩)]⟩⟩ :=
  ⟨by decide, by decide⟩

/-- C3 (amended): the generator makes a single generation attempt with the
caller-designated provider — its outcome depends only on the CLI result of that provider and the write flag — and when that attempt yields a falsy
result it returns a recoverable `None` with the state untouched, never an
uncaught exception; switching providers is left to the caller. -/
theorem c3_single_attempt_recoverable
    (n : Int) (t o d prov : String) (env env' : GenEnv) (st : GenState)
    (hp : env.procResult prov = env'.procResult prov)
    (hw : env.writeOk = env'.writeOk) :
    generate_chapter_with_coherence n t o d prov env st =
      generate_chapter_with_coherence n t o d prov env' st ∧
    (isFalsy (call_ai (buildPrompt n t o (contextFor st n)) prov 8000
        (env.procResult prov)) = true →
      generate_chapter_with_coherence n t o d prov env st = .ret none st) := by
  constructor
  · unfold generate_chapter_with_coherence
    rw [hp, hw]
  · exact fun h => generate_falsy_ret_none n t o d prov env st h

/-- Witness for C3 (amended) at the counterexample environment. -/
theorem c3_single_attempt_recoverable_witness :
    generate_chapter_with_coherence 2 "T" "O" "." "claude" c3Env emptySt =
      .ret none emptySt :=
  (c3_single_attempt_recoverable 2 "T" "O" "." "claude" c3Env c3Env emptySt
    rfl rfl).2 (by decide)

/-- C4: `index_chapter` runs only after the file write: if the write fails
the invocation aborts (an uncaught exception, or `None` when generation
already failed) with the whole state — store included — untouched; and on
every successful run the indexed content is exactly what sits on
disk at the output path of the chapter. -/
theorem c4_write_before_index
    (n : Int) (t o d prov : String) (env : GenEnv) (st : GenState) :
    (env.writeOk = false →
      generate_chapter_with_coherence n t o d prov env st = .ret none st ∨
      generate_chapter_with_coherence n t o d prov env st = .exc "write failed" st) ∧
    (∀ c st', generate_chapter_with_coherence n t o d prov env st = .ret (some c) st' →
      fsLookup st'.fs (outputPath d n t) = some c) := by
  constructor
  · intro hw
    unfold generate_chapter_with_coherence
    cases call_ai (buildPrompt n t o (contextFor st n)) prov 8000 (env.procResult prov) with
    | none => left; rfl
    | some c =>
      by_cases hc : c = ""
      · left; simp [hc]
      · right; simp [hc, hw]
  · intro c st' h
    obtain ⟨-, -, hfs, -, -⟩ := generate_ret_some_inv n t o d prov env st c st' h
    rw [hfs]
    exact fsLookup_fsWrite st.fs (outputPath d n t) c

/-- Environment whose file write fails while the provider succeeds. -/
def c4Env : GenEnv := ⟨fun _ => ProcResult.completed 0 "Texto del capítulo." "", false⟩

/-- Witness for C4: with a failing write, the run ends in `None` or in the
write exception, the state untouched either way. -/
theorem c4_write_before_index_witness :
    generate_chapter_with_coherence 3 "T" "O" "." "claude" c4Env emptySt =
      .ret none emptySt ∨
    generate_chapter_with_coherence 3 "T" "O" "." "claude" c4Env emptySt =
      .exc "write failed" emptySt :=
  (c4_write_before_index 3 "T" "O" "." "claude" c4Env emptySt).1 rfl

/-- C5: when the collection handle of the store is absent, a successful
generation still returns the chapter content and writes the file, the
indexing step is skipped (the store is returned unchanged), and no
exception is raised. -/
theorem c5_store_unavailable_degrades
    (n : Int) (t o d prov : String) (env : GenEnv) (st : GenState)
    (hav : st.store.available = false) (hw : env.writeOk = true) (c : String)
    (hc : call_ai (buildPrompt n t o (contextFor st n)) prov 8000
            (env.procResult prov) = some c)
    (hne : c ≠ "") :
    generate_chapter_with_coherence n t o d prov env st =
      .ret (some c) ⟨fsWrite st.fs (outputPath d n t) c, st.store⟩ := by
  unfold generate_chapter_with_coherence
  rw [hc]
  simp [hne, hw, hav]

/-- State whose store handle is unavailable. -/
def c5St : GenState := ⟨⟨[]⟩, ⟨false, []⟩⟩

/-- Environment with a succeeding claude CLI for C5. -/
def c5Env : GenEnv := ⟨fun _ => ProcResult.completed 0 "Texto útil." "", true⟩

/-- Witness for C5: store unavailable, provider succeeds. -/
theorem c5_store_unavailable_degrades_witness :
    generate_chapter_with_coherence 2 "T" "O" "." "claude" c5Env c5St =
      .ret (some "Texto útil.") ⟨fsWrite c5St.fs (outputPath "." 2 "T") "Texto útil.", c5St.store⟩ :=
  c5_store_unavailable_degrades 2 "T" "O" "." "claude" c5Env c5St rfl rfl
    "Texto útil." (by decide) (by decide)

/-- C6: the generator consults the store only for `chapter_num > 1`
(chapter 1 — and any smaller number — uses the initial empty context),
and a store query with no strictly earlier indexed chapter returns the
empty context without error. -/
theorem c6_chapter_one_empty_context (st : GenState) (store : BookEmbeddings) (n : Int)
    (h : store.entries.filter (fun e => e.1 < n) = []) :
    contextFor st 1 = "" ∧ (∀ m : Int, m ≤ 1 → contextFor st m = "") ∧
    get_chapter_context store n = "" := by
  refine ⟨by simp [contextFor], fun m hm => ?_, ?_⟩
  · simp [contextFor, show ¬ (m > 1) from by omega]
  · unfold get_chapter_context
    by_cases hav : store.available = false
    · simp [hav]
    · simp [hav, h]

/-- Witness for C6: chapter 1 against a store that only knows chapter 2. -/
theorem c6_chapter_one_empty_context_witness :
    contextFor emptySt 1 = "" :=
  (c6_chapter_one_empty_context emptySt ⟨true, [(2, "x", ⟨"T", 1⟩)]⟩ 1 (by decide)).1

/-- Filtering for a key removes nothing that a filter against that key
left behind. -/
theorem filter_eq_filter_ne (l : List (String × String)) (p : String) :
    (l.filter (fun e => e.1 ≠ p)).filter (fun e => e.1 = p) = [] := by
  induction l with
  | nil => rfl
  | cons a l ih => by_cases h : a.1 = p <;> simp [List.filter_cons, h, ih]

/-- After `fsWrite`, the only entry at the written path is the new one. -/
theorem fsWrite_filter_path (fs : Fs) (p c : String) :
    (fsWrite fs p c).files.filter (fun e => e.1 = p) = [(p, c)] := by
  simp [fsWrite, List.filter_cons, filter_eq_filter_ne]

/-- C7: the output path is a pure function of directory, chapter number
and title (zero-padded number; lowercased, space-to-underscore title), so
regenerating the same chapter targets the same path; a second successful
run overwrites the file, leaving a single entry holding the new content. -/
theorem c7_deterministic_path_overwrite
    (n : Int) (t o1 o2 d prov1 prov2 : String) (env1 env2 : GenEnv)
    (st st1 st2 : GenState) (c1 c2 : String)
    (h1 : generate_chapter_with_coherence n t o1 d prov1 env1 st = .ret (some c1) st1)
    (h2 : generate_chapter_with_coherence n t o2 d prov2 env2 st1 = .ret (some c2) st2) :
    fsLookup st1.fs (outputPath d n t) = some c1 ∧
    fsLookup st2.fs (outputPath d n t) = some c2 ∧
    st2.fs.files.filter (fun e => e.1 = outputPath d n t) = [(outputPath d n t, c2)] ∧
    (0 ≤ n → n < 10 → pyFormat02d n = "0" ++ n.natAbs.repr) ∧
    ' ' ∉ (pyUnderscoreSpaces (pyLower t)).data := by
  obtain ⟨-, -, hfs1, -, -⟩ := generate_ret_some_inv n t o1 d prov1 env1 st c1 st1 h1
  obtain ⟨-, -, hfs2, -, -⟩ := generate_ret_some_inv n t o2 d prov2 env2 st1 c2 st2 h2
  refine ⟨?_, ?_, ?_, fun h0 h10 => ?_, ?_⟩
  · rw [hfs1]; exact fsLookup_fsWrite _ _ _
  · rw [hfs2]; exact fsLookup_fsWrite _ _ _
  · rw [hfs2]; exact fsWrite_filter_path _ _ _
  · simp [pyFormat02d, h0, h10]
  · simp only [pyUnderscoreSpaces, List.mem_map, not_exists]
    rintro c ⟨-, hc⟩
    by_cases h : c = ' ' <;> simp [h] at hc

/-- First run for the C7 witness. -/
def c7EnvA : GenEnv := ⟨fun _ => ProcResult.completed 0 "Uno dos" "", true⟩

/-- Regeneration run for the C7 witness. -/
def c7EnvB : GenEnv := ⟨fun _ => ProcResult.completed 0 "Tres" "", true⟩

/-- State after the first C7 run. -/
def c7St1 : GenState :=
  ⟨⟨[("./outputs/chapters/chapter02_t.md", "Uno dos")]⟩,
   ⟨true, [(2, "Uno dos", ⟨"T", 2⟩)]⟩⟩

/-- State after the C7 regeneration. -/
def c7St2 : GenState :=
  ⟨⟨[("./outputs/chapters/chapter02_t.md", "Tres")]⟩,
   ⟨true, [(2, "Tres", ⟨"T", 1⟩)]⟩⟩

/-- Witness for C7: regenerating chapter 2 leaves one file entry at the
same path, holding the new content. -/
theorem c7_deterministic_path_overwrite_witness :
    c7St2.fs.files.filter (fun e => e.1 = outputPath "." 2 "T") =
      [(outputPath "." 2 "T", "Tres")] :=
  (c7_deterministic_path_overwrite 2 "T" "O" "O" "." "claude" "claude"
    c7EnvA c7EnvB emptySt c7St1 c7St2 "Uno dos" "Tres"
    (by decide) (by decide)).2.2.1

/-- C8: a successful run with an available store records, as the entry for
this chapter, the returned content together with metadata whose
`word_count` is the whitespace-token count of that content. -/
theorem c8_word_count_metadata
    (n : Int) (t o d prov : String) (env : GenEnv) (st : GenState)
    (hav : st.store.available = true) (c : String) (st' : GenState)
    (h : generate_chapter_with_coherence n t o d prov env st = .ret (some c) st') :
    st'.store.entries.find? (fun e => e.1 = n) =
      some (n, c, ⟨t, (pySplitWs c).length⟩) := by
  obtain ⟨-, -, -, hst, -⟩ := generate_ret_some_inv n t o d prov env st c st' h
  rw [hst, if_pos hav]
  simp [index_chapter, hav]

/-- Environment for the C8 witness. -/
def c8Env : GenEnv := ⟨fun _ => ProcResult.completed 0 "Uno dos tres" "", true⟩

/-- Witness for C8: three whitespace-delimited tokens give word count 3. -/
theorem c8_word_count_metadata_witness :
    (⟨⟨[("./outputs/chapters/chapter05_t.md", "Uno dos tres")]⟩,
      ⟨true, [(5, "Uno dos tres", ⟨"T", 3⟩)]⟩⟩ : GenState).store.entries.find?
        (fun e => e.1 = 5) = some (5, "Uno dos tres", ⟨"T", 3⟩) :=
  c8_word_count_metadata 5 "T" "O" "." "claude" c8Env emptySt rfl
    "Uno dos tres" _ (by decide)

/-- Exhibiting a decomposition proves containment. -/
theorem strContains_intro (s sub : String) (pre suf : List Char)
    (h : pre ++ sub.data ++ suf = s.data) : strContains s sub :=
  ⟨pre, suf, h⟩

/-- The character data of the composed prompt, segment by segment. -/
theorem buildPrompt_data (n : Int) (t o ctx : String) :
    (buildPrompt n t o ctx).data =
      (promptHeader n).data ++ (t.data ++ (promptAfterTitle.data ++ (o.data ++
        (promptAfterOutline.data ++ ((if ctx = "" then "" else labelStr).data ++
        ("\n".data ++ ((if ctx = "" then "" else ctx).data ++ promptTail.data))))))) := by
  simp [buildPrompt, promptParts]

/-- The prompt header opens with the fixed authorial framing, hence with
the letter of its first word. -/
theorem promptHeader_head (n : Int) : (promptHeader n).data.head? = some 'Y' := by
  simp only [promptHeader, String.data_append, List.head?_append]
  rfl

/-- The context label is never the header segment. -/
theorem labelStr_ne_promptHeader (n : Int) : labelStr ≠ promptHeader n := by
  intro h
  have h2 := congrArg (fun s => s.data.head?) h
  simp only [promptHeader_head] at h2
  exact absurd h2 (by decide)

/-- C9: the composed prompt contains the chapter number, the title, the
outline and the fixed style/requirements instructions; the delimiting
label marking established facts is a segment of the prompt exactly when
the retrieved context is non-empty, in which case the label and the
context itself occur in the prompt text. -/
theorem c9_prompt_composition (n : Int) (t o ctx : String)
    (ht : t ≠ labelStr) (ho : o ≠ labelStr) :
    (labelStr ∈ promptParts n t o ctx ↔ ctx ≠ "") ∧
    strContains (buildPrompt n t o ctx) (Int.repr n) ∧
    strContains (buildPrompt n t o ctx) t ∧
    strContains (buildPrompt n t o ctx) o ∧
    strContains (buildPrompt n t o ctx) promptTail ∧
    (ctx ≠ "" → strContains (buildPrompt n t o ctx) labelStr ∧
      strContains (buildPrompt n t o ctx) ctx) := by
  refine ⟨⟨fun hmem => ?_, fun hctx => ?_⟩, ?_, ?_, ?_, ?_, fun hctx => ⟨?_, ?_⟩⟩
  · intro hctx
    subst hctx
    simp only [promptParts, if_pos rfl, List.mem_cons, List.mem_singleton] at hmem
    rcases hmem with h | h | h | h | h | h | h | h | h | h
    · exact labelStr_ne_promptHeader n h
    · exact ht h.symm
    · exact absurd h (by decide)
    · exact ho h.symm
    · exact absurd h (by decide)
    · exact absurd h (by decide)
    · exact absurd h (by decide)
    · exact absurd h (by decide)
    · exact absurd h (by decide)
    · exact absurd h (by decide)
  · simp [promptParts, if_neg hctx]
  · refine strContains_intro _ _ "You are writing Chapter ".data
      ((" of \"El Desarrollador Ágil\", a technical book on developer productivity.\n\n**Chapter ").data ++
        (Int.repr n).data ++ (": ").data ++
        (t.data ++ (promptAfterTitle.data ++ (o.data ++
        (promptAfterOutline.data ++ ((if ctx = "" then "" else labelStr).data ++
        ("\n".data ++ ((if ctx = "" then "" else ctx).data ++ promptTail.data)))))))) ?_
    simp [buildPrompt_data, promptHeader]
  · exact strContains_intro _ _ (promptHeader n).data
      (promptAfterTitle.data ++ (o.data ++
        (promptAfterOutline.data ++ ((if ctx = "" then "" else labelStr).data ++
        ("\n".data ++ ((if ctx = "" then "" else ctx).data ++ promptTail.data))))))
      (by simp [buildPrompt_data])
  · exact strContains_intro _ _ ((promptHeader n).data ++ t.data ++ promptAfterTitle.data)
      (promptAfterOutline.data ++ ((if ctx = "" then "" else labelStr).data ++
        ("\n".data ++ ((if ctx = "" then "" else ctx).data ++ promptTail.data))))
      (by simp [buildPrompt_data])
  · exact strContains_intro _ _
      ((promptHeader n).data ++ t.data ++ promptAfterTitle.data ++ o.data ++
        promptAfterOutline.data ++ (if ctx = "" then "" else labelStr).data ++
        "\n".data ++ (if ctx = "" then "" else ctx).data)
      [] (by simp [buildPrompt_data])
  · refine strContains_intro _ _
      ((promptHeader n).data ++ t.data ++ promptAfterTitle.data ++ o.data ++
        promptAfterOutline.data)
      ("\n".data ++ ((if ctx = "" then "" else ctx).data ++ promptTail.data)) ?_
    rw [buildPrompt_data, if_neg hctx]
    simp [hctx]
  · refine strContains_intro _ _
      ((promptHeader n).data ++ t.data ++ promptAfterTitle.data ++ o.data ++
        promptAfterOutline.data ++ (if ctx = "" then "" else labelStr).data ++ "\n".data)
      promptTail.data ?_
    rw [buildPrompt_data, if_neg hctx]
    simp [hctx]

/-- Witness for C9 at chapter 2 with a non-empty retrieved context. -/
theorem c9_prompt_composition_witness :
    labelStr ∈ promptParts 2 "Deep Work" "Outline here" "Prior facts." ↔
      "Prior facts." ≠ "" :=
  (c9_prompt_composition 2 "Deep Work" "Outline here" "Prior facts."
    (by decide) (by decide)).1

end BookSystem
